import Mathlib

/-!
Shallow embedding of `src/score.rs` from Axect/suneung2024.

Conventions of the embedding:
* Rust `f64` values are embedded as `ℚ` (the arithmetic in the scoring
  engine is plain field arithmetic; `ℚ` makes it exact and decidable).
* The Rust `HashMap<Subject, Score>` is embedded as a function
  `Subject → Option Score` (the key type is a small closed enumeration).
* Every Rust panic path (`unwrap` on a missing key, `Vec` indexing out of
  bounds, `unreachable!`, `unimplemented!`) is embedded as `Option.none`,
  so a computation that would panic in Rust evaluates to `none` here.
* The per-(university, year) constant tables live in the crate module
  `university_weight.rs`, which is not part of the sources given; the
  loader is therefore parametrised by an assignment of raw constant data
  (see `RawUnivData` below).
-/

namespace Suneung

/-- One subject result: `Score { standard_score, percentile, rank }`
(src/score.rs lines 7-12). -/
structure Score where
  standard_score : ℚ
  percentile : ℚ
  rank : Nat
  deriving Repr, DecidableEq

/-- The closed subject enumeration (src/score.rs lines 28-35). -/
inductive Subject where
  | Korean
  | Math
  | English
  | Chemistry
  | EarthScience
  deriving Repr, DecidableEq

/-- `Record { name, scores }` (src/score.rs lines 49-53); the `HashMap`
is embedded as a function from the closed key enumeration to `Option`. -/
structure Record where
  name : String
  scores : Subject → Option Score

/-- `Record::new` (src/score.rs lines 56-61): an empty score map. -/
def Record.new (name : String) : Record :=
  { name := name, scores := fun _ => none }

/-- `Record::record` (src/score.rs lines 63-72): `HashMap::insert`,
overwriting any previous entry for the subject. -/
def Record.record (self : Record) (subject : Subject)
    (standard_score percentile : ℚ) (rank : Nat) : Record :=
  { self with
    scores := fun s =>
      if s = subject then
        some { standard_score := standard_score, percentile := percentile, rank := rank }
      else self.scores s }

/-- `Record::korean` (src/score.rs lines 78-80); the Rust `unwrap` on a
missing key panics, embedded as `none`. -/
def Record.korean (self : Record) : Option Score :=
  self.scores Subject.Korean

/-- `Record::math` (src/score.rs lines 82-84). -/
def Record.math (self : Record) : Option Score :=
  self.scores Subject.Math

/-- `Record::english` (src/score.rs lines 86-88). -/
def Record.english (self : Record) : Option Score :=
  self.scores Subject.English

/-- `Record::chemistry` (src/score.rs lines 90-92). -/
def Record.chemistry (self : Record) : Option Score :=
  self.scores Subject.Chemistry

/-- `Record::earth_science` (src/score.rs lines 94-96). -/
def Record.earth_science (self : Record) : Option Score :=
  self.scores Subject.EarthScience

/-- `Record::standard_score` (src/score.rs lines 98-100). -/
def Record.standard_score (self : Record) (subject : Subject) : Option ℚ :=
  (self.scores subject).map Score.standard_score

/-- `Record::percentile` (src/score.rs lines 102-104). -/
def Record.percentile (self : Record) (subject : Subject) : Option ℚ :=
  (self.scores subject).map Score.percentile

/-- `Record::rank` (src/score.rs lines 106-108). -/
def Record.rank (self : Record) (subject : Subject) : Option Nat :=
  (self.scores subject).map Score.rank

/-- The resolved weight table `UniversityWeight`
(src/score.rs lines 273-282). -/
structure UniversityWeight where
  korean : ℚ
  math : ℚ
  english : ℚ
  science : ℚ
  science_required : Nat
  english_required : Nat
  english_table : List ℚ
  deriving Repr, DecidableEq

/-- The elective-science candidate computed inside
`Record::calc_with_university` (src/score.rs lines 202-212): the `match`
on `science_required`, whose `_` arm is `unreachable!` (embedded as
`none`). Extracted from the `let science_cand = ...` binding. -/
def Record.science_cand (self : Record) (weight : UniversityWeight) : Option ℚ := do
  let chem ← self.chemistry
  let earth ← self.earth_science
  match weight.science_required with
  | 1 => some (max chem.standard_score earth.standard_score * 2)
  | 2 => some (chem.standard_score + earth.standard_score)
  | _ => none

/-- The scoring computation of `Record::calc_with_university`
(src/score.rs lines 194-229) after the weight table has been resolved:
everything from line 196 on, with the table passed in. `Vec` indexing
into the English table is embedded as `List.get?` (Rust panics out of
bounds). -/
def Record.calc_core (self : Record) (weight : UniversityWeight) : Option ℚ := do
  let weight_sum_except_eng := weight.korean + weight.math + weight.science
  let weight_eng := weight.english
  let weight_sum := weight_sum_except_eng + weight_eng
  let kor ← self.korean
  let mat ← self.math
  let korean := kor.standard_score * weight.korean / weight_sum_except_eng
  let math := mat.standard_score * weight.math / weight_sum_except_eng
  let science_cand ← self.science_cand weight
  let science := science_cand * weight.science / weight_sum_except_eng
  let total := (korean + math + science) * 3
  let eng ← self.english
  let eng_rank := eng.rank
  let eng_required_rank := weight.english_required
  let eng_table := weight.english_table
  let eng_default_score ← eng_table.get? eng_required_rank
  let eng_score ← eng_table.get? eng_rank
  if weight_eng > 0 then
    some (total + (eng_score - eng_default_score) * weight_eng / weight_sum)
  else
    some (total + (eng_score - eng_default_score) / 4)

/-- The closed institution enumeration `University`
(src/score.rs lines 232-249). -/
inductive University where
  | KYUNGHEE
  | DONGGUK
  | SEOULSCITECH
  | KWANGWOON
  | INHA
  | ERICA
  | SEJONG
  | KOOKMIN
  | AJU
  | SOONGSIL
  | KONKUK
  | CATHOLIC
  | CHUNGANG
  | SEOUL
  | SOGANG
  deriving Repr, DecidableEq

/-- Modelled from the spec: the raw per-(institution, year) constant data
referenced by the `make_university_weight!` macro lives in the crate
module `university_weight.rs`, which is not among the given sources.
Per the spec each catalog entry is four raw weighting coefficients
(Korean, Math, English, Science), a science-required-count flag, an
English reference rank, and an English rank→score table. -/
structure RawUnivData where
  w_korean : ℚ
  w_math : ℚ
  w_english : ℚ
  w_science : ℚ
  sci_req : Nat
  eng_req : Nat
  eng_table : List ℚ
  deriving Repr, DecidableEq

/-- The body of the `make_university_weight!` macro
(src/score.rs lines 284-309): packs one entry's raw constants into a
`UniversityWeight` with every field populated. -/
def make_university_weight (d : RawUnivData) : UniversityWeight :=
  { korean := d.w_korean
    math := d.w_math
    english := d.w_english
    science := d.w_science
    science_required := d.sci_req
    english_required := d.eng_req
    english_table := d.eng_table }

/-- `UniversityWeight::load` (src/score.rs lines 312-363): the exact
(university, year) match; the trailing `_ => unimplemented!()` panic arm
is embedded as `none`. The raw constant data is passed in as `c` because
the constants module is not among the given sources. -/
def UniversityWeight.load (c : University → Nat → RawUnivData)
    (univ : University) (year : Nat) : Option UniversityWeight :=
  match univ, year with
  | .KYUNGHEE, 2022 => some (make_university_weight (c .KYUNGHEE 2022))
  | .DONGGUK, 2022 => some (make_university_weight (c .DONGGUK 2022))
  | .SEOULSCITECH, 2022 => some (make_university_weight (c .SEOULSCITECH 2022))
  | .KWANGWOON, 2022 => some (make_university_weight (c .KWANGWOON 2022))
  | .INHA, 2022 => some (make_university_weight (c .INHA 2022))
  | .ERICA, 2022 => some (make_university_weight (c .ERICA 2022))
  | .SEJONG, 2022 => some (make_university_weight (c .SEJONG 2022))
  | .KOOKMIN, 2022 => some (make_university_weight (c .KOOKMIN 2022))
  | .AJU, 2022 => some (make_university_weight (c .AJU 2022))
  | .SOONGSIL, 2022 => some (make_university_weight (c .SOONGSIL 2022))
  | .CATHOLIC, 2022 => some (make_university_weight (c .CATHOLIC 2022))
  | .KYUNGHEE, 2023 => some (make_university_weight (c .KYUNGHEE 2023))
  | .DONGGUK, 2023 => some (make_university_weight (c .DONGGUK 2023))
  | .SEOULSCITECH, 2023 => some (make_university_weight (c .SEOULSCITECH 2023))
  | .KWANGWOON, 2023 => some (make_university_weight (c .KWANGWOON 2023))
  | .INHA, 2023 => some (make_university_weight (c .INHA 2023))
  | .ERICA, 2023 => some (make_university_weight (c .ERICA 2023))
  | .SEJONG, 2023 => some (make_university_weight (c .SEJONG 2023))
  | .KOOKMIN, 2023 => some (make_university_weight (c .KOOKMIN 2023))
  | .AJU, 2023 => some (make_university_weight (c .AJU 2023))
  | .SOONGSIL, 2023 => some (make_university_weight (c .SOONGSIL 2023))
  | .CATHOLIC, 2023 => some (make_university_weight (c .CATHOLIC 2023))
  | .SOGANG, 2024 => some (make_university_weight (c .SOGANG 2024))
  | .CHUNGANG, 2024 => some (make_university_weight (c .CHUNGANG 2024))
  | .KYUNGHEE, 2024 => some (make_university_weight (c .KYUNGHEE 2024))
  | .SEOUL, 2024 => some (make_university_weight (c .SEOUL 2024))
  | .DONGGUK, 2024 => some (make_university_weight (c .DONGGUK 2024))
  | .SEOULSCITECH, 2024 => some (make_university_weight (c .SEOULSCITECH 2024))
  | .KWANGWOON, 2024 => some (make_university_weight (c .KWANGWOON 2024))
  | .INHA, 2024 => some (make_university_weight (c .INHA 2024))
  | .ERICA, 2024 => some (make_university_weight (c .ERICA 2024))
  | .SEJONG, 2024 => some (make_university_weight (c .SEJONG 2024))
  | .KOOKMIN, 2024 => some (make_university_weight (c .KOOKMIN 2024))
  | .AJU, 2024 => some (make_university_weight (c .AJU 2024))
  | .SOONGSIL, 2024 => some (make_university_weight (c .SOONGSIL 2024))
  | .KONKUK, 2024 => some (make_university_weight (c .KONKUK 2024))
  | .CATHOLIC, 2024 => some (make_university_weight (c .CATHOLIC 2024))
  | .SOGANG, 2025 => some (make_university_weight (c .SOGANG 2025))
  | .CHUNGANG, 2025 => some (make_university_weight (c .CHUNGANG 2025))
  | .KYUNGHEE, 2025 => some (make_university_weight (c .KYUNGHEE 2025))
  | .SEOUL, 2025 => some (make_university_weight (c .SEOUL 2025))
  | .KONKUK, 2025 => some (make_university_weight (c .KONKUK 2025))
  | .DONGGUK, 2025 => some (make_university_weight (c .DONGGUK 2025))
  | _, _ => none

/-- The declared domain of the registry: the (institution, year) pairs
that have a match arm in `UniversityWeight::load`
(src/score.rs lines 313-361). -/
def catalog : List (University × Nat) :=
  [(.KYUNGHEE, 2022), (.DONGGUK, 2022), (.SEOULSCITECH, 2022),
   (.KWANGWOON, 2022), (.INHA, 2022), (.ERICA, 2022), (.SEJONG, 2022),
   (.KOOKMIN, 2022), (.AJU, 2022), (.SOONGSIL, 2022), (.CATHOLIC, 2022),
   (.KYUNGHEE, 2023), (.DONGGUK, 2023), (.SEOULSCITECH, 2023),
   (.KWANGWOON, 2023), (.INHA, 2023), (.ERICA, 2023), (.SEJONG, 2023),
   (.KOOKMIN, 2023), (.AJU, 2023), (.SOONGSIL, 2023), (.CATHOLIC, 2023),
   (.SOGANG, 2024), (.CHUNGANG, 2024), (.KYUNGHEE, 2024), (.SEOUL, 2024),
   (.DONGGUK, 2024), (.SEOULSCITECH, 2024), (.KWANGWOON, 2024),
   (.INHA, 2024), (.ERICA, 2024), (.SEJONG, 2024), (.KOOKMIN, 2024),
   (.AJU, 2024), (.SOONGSIL, 2024), (.KONKUK, 2024), (.CATHOLIC, 2024),
   (.SOGANG, 2025), (.CHUNGANG, 2025), (.KYUNGHEE, 2025), (.SEOUL, 2025),
   (.KONKUK, 2025), (.DONGGUK, 2025)]

/-- `Record::calc_with_university` (src/score.rs lines 194-229) in full:
resolve the weight table, then run the scoring computation. -/
def Record.calc_with_university (self : Record)
    (c : University → Nat → RawUnivData) (univ : University) (year : Nat) :
    Option ℚ :=
  (UniversityWeight.load c univ year).bind self.calc_core

/-- Rust `f64 as usize`: truncation toward zero, saturating at zero for
negative values (used for the rank column in `Record::read_parquet`). -/
def f64_as_usize (x : ℚ) : Nat :=
  x.floor.toNat

/-- `Record::to_dataframe` (src/score.rs lines 110-150): the peroxide
`DataFrame` is embedded as an association list from column name to the
column's values. The English column is written as `[0, 0, rank]`. The
accessor `unwrap`s are embedded as `Option` binds. -/
def Record.to_dataframe (self : Record) : Option (List (String × List ℚ)) := do
  let kor ← self.korean
  let mat ← self.math
  let eng ← self.english
  let chem ← self.chemistry
  let earth ← self.earth_science
  some [("Korean", [kor.standard_score, kor.percentile, (kor.rank : ℚ)]),
        ("Math", [mat.standard_score, mat.percentile, (mat.rank : ℚ)]),
        ("English", [0, 0, (eng.rank : ℚ)]),
        ("Chemistry", [chem.standard_score, chem.percentile, (chem.rank : ℚ)]),
        ("EarthScience",
          [earth.standard_score, earth.percentile, (earth.rank : ℚ)])]

/-- One column read of `Record::read_parquet`
(src/score.rs lines 167-171 and 175-189): fetch the named column
(`df["..."]` panics when the column is absent, embedded as `none`) and
index its three entries (`Vec` indexing panics out of bounds, embedded as
`none`). -/
def read_col (df : List (String × List ℚ)) (key : String) :
    Option (ℚ × ℚ × ℚ) := do
  let col ← df.lookup key
  let a ← col.get? 0
  let b ← col.get? 1
  let c ← col.get? 2
  some (a, b, c)

/-- `Record::read_parquet` (src/score.rs lines 165-192) with the on-disk
dataframe passed in (file reading is outside the scoring core). The
English column is only indexed at position 2 (the source reads
`english[2]` and never `english[0]`/`english[1]`), and the English entry
is reconstructed as `(0, 0, rank)` exactly as in the source. -/
def Record.read_parquet (name : String) (df : List (String × List ℚ)) :
    Option Record := do
  let korean ← read_col df "Korean"
  let math ← read_col df "Math"
  let english ← df.lookup "English"
  let e2 ← english.get? 2
  let chemistry ← read_col df "Chemistry"
  let earth_science ← read_col df "EarthScience"
  let rec0 := Record.new name
  let rec1 := rec0.record Subject.Korean korean.1 korean.2.1
    (f64_as_usize korean.2.2)
  let rec2 := rec1.record Subject.Math math.1 math.2.1 (f64_as_usize math.2.2)
  let rec3 := rec2.record Subject.English 0 0 (f64_as_usize e2)
  let rec4 := rec3.record Subject.Chemistry chemistry.1 chemistry.2.1
    (f64_as_usize chemistry.2.2)
  some (rec4.record Subject.EarthScience earth_science.1 earth_science.2.1
    (f64_as_usize earth_science.2.2))

/-- A record built from `Record::new` by a sequence of `Record::record`
calls (the lifecycle described in the spec: created empty, populated by
repeated record calls). -/
def buildRecord (name : String) (ops : List (Subject × ℚ × ℚ × Nat)) :
    Record :=
  ops.foldl (fun r op => r.record op.1 op.2.1 op.2.2.1 op.2.2.2)
    (Record.new name)

/-! ### Concrete test data

The end-to-end scenario of the spec (§8): weights korean=30, math=30,
english=0, science=40, two required science subjects, English reference
rank 1, English rank table `[_, 100, 97, 94]` (index 0 a sentinel); a
record with Korean 130, Math 125, Chemistry 68, EarthScience 65 standard
scores and English rank 2. -/

/-- The weight table of the spec's end-to-end scenario. -/
def endToEndWeight : UniversityWeight :=
  { korean := 30, math := 30, english := 0, science := 40
    science_required := 2, english_required := 1
    english_table := [0, 100, 97, 94] }

/-- The end-to-end scenario's weight table with the best-of-two-doubled
science policy instead (`science_required = 1`). -/
def reqOneWeight : UniversityWeight :=
  { endToEndWeight with science_required := 1 }

/-- The end-to-end scenario's weight table with an English rank table too
short for the student's rank. -/
def shortTableWeight : UniversityWeight :=
  { endToEndWeight with english_table := [0, 100] }

/-- The student record of the spec's end-to-end scenario (percentiles and
unused fields filled with arbitrary concrete values). -/
def endToEndRecord : Record :=
  (((((Record.new "student").record Subject.Korean 130 95 1).record
      Subject.Math 125 93 2).record Subject.Chemistry 68 94 2).record
      Subject.EarthScience 65 90 2).record Subject.English 0 0 2

/-- The end-to-end record with different (nonzero) English standard score
and percentile but the same English rank. -/
def altEnglishRecord : Record :=
  endToEndRecord.record Subject.English 120 80 2

/-- C1: in the end-to-end scenario (weights 30/30/0/40, two required
science subjects, English reference rank 1, table `[_,100,97,94]`;
standard scores Korean 130, Math 125, Chemistry 68, EarthScience 65,
English rank 2) the calculator returns 388.35: base total 389.1 plus the
English adjustment (97-100)/4 = -0.75. -/
theorem calc_end_to_end_scenario :
    endToEndRecord.calc_core endToEndWeight = some (388.35 : ℚ) := by
  have hk : endToEndRecord.korean = some ⟨130, 95, 1⟩ := rfl
  have hm : endToEndRecord.math = some ⟨125, 93, 2⟩ := rfl
  have hc : endToEndRecord.chemistry = some ⟨68, 94, 2⟩ := rfl
  have hes : endToEndRecord.earth_science = some ⟨65, 90, 2⟩ := rfl
  have hen : endToEndRecord.english = some ⟨0, 0, 2⟩ := rfl
  simp only [Record.calc_core, Record.science_cand, hk, hm, hc, hes, hen,
    endToEndWeight]
  norm_num [Option.bind, List.get?]

/-- C2: the elective-science candidate used by the calculator equals
`2 * max(chem, earth)` when one science subject is required, and
`chem + earth` when two are required. -/
theorem science_cand_policy (r : Record) (w : UniversityWeight)
    (chem earth : Score) (hc : r.chemistry = some chem)
    (he : r.earth_science = some earth) :
    (w.science_required = 1 →
      r.science_cand w =
        some (2 * max chem.standard_score earth.standard_score)) ∧
    (w.science_required = 2 →
      r.science_cand w = some (chem.standard_score + earth.standard_score)) := by
  constructor <;> intro h <;>
    simp [Record.science_cand, hc, he, h, Option.bind, mul_comm]

theorem science_cand_policy_witness :
    endToEndRecord.science_cand reqOneWeight =
      some (2 * max (68 : ℚ) 65) ∧
    endToEndRecord.science_cand endToEndWeight = some ((68 : ℚ) + 65) :=
  ⟨(science_cand_policy endToEndRecord reqOneWeight ⟨68, 94, 2⟩ ⟨65, 90, 2⟩
      rfl rfl).1 rfl,
   (science_cand_policy endToEndRecord endToEndWeight ⟨68, 94, 2⟩ ⟨65, 90, 2⟩
      rfl rfl).2 rfl⟩

/-- C7: recording a triple for a subject and then retrieving that subject
returns exactly the recorded triple, and recording the same subject twice
retrieves the last recorded triple (last write wins). -/
theorem record_roundtrip_last_write_wins (r : Record) (s : Subject)
    (ss p : ℚ) (rk : Nat) (ss2 p2 : ℚ) (rk2 : Nat) :
    (r.record s ss p rk).scores s = some ⟨ss, p, rk⟩ ∧
    (r.record s ss p rk).standard_score s = some ss ∧
    (r.record s ss p rk).percentile s = some p ∧
    (r.record s ss p rk).rank s = some rk ∧
    ((r.record s ss p rk).record s ss2 p2 rk2).scores s = some ⟨ss2, p2, rk2⟩ := by
  refine ⟨?_, ?_, ?_, ?_, ?_⟩ <;>
    simp [Record.record, Record.standard_score, Record.percentile, Record.rank]

/-- C10: recording a score for one subject changes only that subject's
entry: the student's name and every other subject's entry (or absence of
one) are unchanged. -/
theorem record_frame (r : Record) (s : Subject) (ss p : ℚ) (rk : Nat)
    (s2 : Subject) (h : s2 ≠ s) :
    (r.record s ss p rk).name = r.name ∧
    (r.record s ss p rk).scores s2 = r.scores s2 := by
  exact ⟨rfl, by simp [Record.record, h]⟩

theorem record_frame_witness :
    ((Record.new "w").record Subject.Korean 1 2 3).name = "w" ∧
    ((Record.new "w").record Subject.Korean 1 2 3).scores Subject.Math =
      (Record.new "w").scores Subject.Math :=
  record_frame (Record.new "w") Subject.Korean 1 2 3 Subject.Math (by decide)

/-- The positive half of the registry lookup: every catalog pair
resolves to the entry packed from its raw constants. -/
theorem load_some_of_mem (c : University → Nat → RawUnivData)
    (p : University × Nat) (hp : p ∈ catalog) :
    UniversityWeight.load c p.1 p.2 =
      some (make_university_weight (c p.1 p.2)) := by
  fin_cases hp <;> rfl

/-- The negative half of the registry lookup: every pair outside the
catalog falls to the `unimplemented!` arm. -/
theorem load_none_of_not_mem (c : University → Nat → RawUnivData)
    (u : University) (y : Nat) (h : (u, y) ∉ catalog) :
    UniversityWeight.load c u y = none := by
  unfold UniversityWeight.load
  split
  all_goals first
    | rfl
    | exact absurd (by decide) h

/-- C4: the registry lookup is deterministic and total over its declared
domain: every (institution, year) pair in the catalog resolves to the
weight table packed from that pair's raw constants (all fields
populated), and every absent pair fails rather than producing a default
table. -/
theorem load_total_over_catalog (c : University → Nat → RawUnivData)
    (u : University) (y : Nat) :
    ((u, y) ∈ catalog →
      UniversityWeight.load c u y = some (make_university_weight (c u y))) ∧
    ((u, y) ∉ catalog → UniversityWeight.load c u y = none) :=
  ⟨fun h => load_some_of_mem c (u, y) h, fun h => load_none_of_not_mem c u y h⟩

/-- A concrete raw constant assignment used only to witness the registry
theorems. -/
def rawExample : RawUnivData :=
  { w_korean := 30, w_math := 30, w_english := 0, w_science := 40
    sci_req := 2, eng_req := 1, eng_table := [0, 100, 97, 94] }

theorem load_total_over_catalog_witness :
    UniversityWeight.load (fun _ _ => rawExample) University.KYUNGHEE 2022 =
      some (make_university_weight rawExample) ∧
    UniversityWeight.load (fun _ _ => rawExample) University.SOGANG 2022 =
      none :=
  ⟨(load_total_over_catalog (fun _ _ => rawExample) University.KYUNGHEE
      2022).1 (by decide),
   (load_total_over_catalog (fun _ _ => rawExample) University.SOGANG
      2022).2 (by decide)⟩

/-- C3: the closed form of the calculator. With all subjects present, the
science candidate resolved and both English table lookups in bounds, the
final score is `baseTotal + (actual - reference) * weightEnglish /
weightSumTotal` when the English weight is positive, and `baseTotal +
(actual - reference) / 4` otherwise, where `baseTotal = (korean*wK +
math*wM + cand*wS) / weightSumNoEnglish * 3`. -/
theorem calc_core_closed_form (r : Record) (w : UniversityWeight)
    (kor mat eng : Score) (cand ds asc : ℚ)
    (hk : r.korean = some kor) (hm : r.math = some mat)
    (hen : r.english = some eng)
    (hcand : r.science_cand w = some cand)
    (hD : w.english_table.get? w.english_required = some ds)
    (hA : w.english_table.get? eng.rank = some asc) :
    (w.english > 0 →
      r.calc_core w = some
        ((kor.standard_score * w.korean + mat.standard_score * w.math +
            cand * w.science) / (w.korean + w.math + w.science) * 3 +
          (asc - ds) * w.english /
            (w.korean + w.math + w.science + w.english))) ∧
    (¬ w.english > 0 →
      r.calc_core w = some
        ((kor.standard_score * w.korean + mat.standard_score * w.math +
            cand * w.science) / (w.korean + w.math + w.science) * 3 +
          (asc - ds) / 4)) := by
  constructor <;> intro h
  · simp only [Record.calc_core, hk, hm, hen, hcand]
    simp only [Option.bind_eq_bind, Option.some_bind, hD, hA]
    rw [if_pos h]
    congr 1
    ring
  · simp only [Record.calc_core, hk, hm, hen, hcand]
    simp only [Option.bind_eq_bind, Option.some_bind, hD, hA]
    rw [if_neg h]
    congr 1
    ring

theorem calc_core_closed_form_witness :
    endToEndRecord.calc_core endToEndWeight = some
      (((130 : ℚ) * 30 + 125 * 30 + ((68 : ℚ) + 65) * 40) /
          ((30 : ℚ) + 30 + 40) * 3 + ((97 : ℚ) - 100) / 4) :=
  (calc_core_closed_form endToEndRecord endToEndWeight ⟨130, 95, 1⟩
    ⟨125, 93, 2⟩ ⟨0, 0, 2⟩ ((68 : ℚ) + 65) 100 97 rfl rfl rfl rfl rfl
    rfl).2 (by norm_num [endToEndWeight])

/-- Scores of a record built by a fold of `Record::record` calls: a
subject's entry is absent exactly when the initial record lacked it and
no call in the sequence recorded it. -/
theorem foldl_record_scores (ops : List (Subject × ℚ × ℚ × Nat))
    (init : Record) (s : Subject) :
    (ops.foldl (fun r op => r.record op.1 op.2.1 op.2.2.1 op.2.2.2)
        init).scores s = none ↔
      init.scores s = none ∧ s ∉ ops.map Prod.fst := by
  induction ops generalizing init with
  | nil => simp
  | cons op rest ih =>
    simp only [List.foldl_cons, ih, List.map_cons, List.mem_cons]
    by_cases hs : s = op.1 <;> simp [Record.record, hs]

/-- C5: retrieving a subject's score fails exactly when no entry was ever
recorded for that subject (the record built from empty by a sequence of
record calls lacks a subject iff the sequence never mentioned it), and a
missing subject makes the whole calculation fail before producing a
score. -/
theorem missing_subject_fails (name : String)
    (ops : List (Subject × ℚ × ℚ × Nat)) (s : Subject)
    (w : UniversityWeight) (r : Record) :
    ((buildRecord name ops).scores s = none ↔ s ∉ ops.map Prod.fst) ∧
    (r.scores s = none → r.calc_core w = none) := by
  constructor
  · rw [buildRecord, foldl_record_scores]
    simp [Record.new]
  · intro h
    cases s
    case Korean =>
      simp only [Record.calc_core, Record.korean, h]
      simp only [Option.bind_eq_bind, Option.none_bind]
    case Math =>
      rcases hK : r.korean with _ | kor <;>
        simp only [Record.calc_core, Record.math, hK, h] <;>
        simp only [Option.bind_eq_bind, Option.none_bind, Option.some_bind]
    case English =>
      rcases hK : r.korean with _ | kor <;>
        rcases hM : r.math with _ | mat <;>
        rcases hS : r.science_cand w with _ | cand <;>
        simp only [Record.calc_core, Record.english, hK, hM, hS, h] <;>
        simp only [Option.bind_eq_bind, Option.none_bind, Option.some_bind]
    case Chemistry =>
      have hS : r.science_cand w = none := by
        simp only [Record.science_cand, Record.chemistry, h]
        simp only [Option.bind_eq_bind, Option.none_bind]
      rcases hK : r.korean with _ | kor <;>
        rcases hM : r.math with _ | mat <;>
        simp only [Record.calc_core, hK, hM, hS] <;>
        simp only [Option.bind_eq_bind, Option.none_bind, Option.some_bind]
    case EarthScience =>
      have hS : r.science_cand w = none := by
        simp only [Record.science_cand, Record.chemistry,
          Record.earth_science, h]
        simp only [Option.bind_eq_bind, Option.none_bind, Option.some_bind]
        cases r.scores Subject.Chemistry <;> rfl
      rcases hK : r.korean with _ | kor <;>
        rcases hM : r.math with _ | mat <;>
        simp only [Record.calc_core, hK, hM, hS] <;>
        simp only [Option.bind_eq_bind, Option.none_bind, Option.some_bind]

theorem missing_subject_fails_witness :
    (Record.new "x").calc_core endToEndWeight = none :=
  (missing_subject_fails "w" [(Subject.Korean, 1, 2, 3)] Subject.Math
    endToEndWeight (Record.new "x")).2 rfl

/-- C6: an English rank (the student's, or the table's reference rank)
outside the bounds of the English rank table makes the calculator fail
rather than return a default score. -/
theorem english_rank_out_of_range (r : Record) (w : UniversityWeight)
    (eng : Score) (hen : r.english = some eng)
    (h : w.english_table.length ≤ eng.rank ∨
         w.english_table.length ≤ w.english_required) :
    r.calc_core w = none := by
  rcases hK : r.korean with _ | kor <;>
    rcases hM : r.math with _ | mat <;>
    rcases hS : r.science_cand w with _ | cand <;>
    simp only [Record.calc_core, hK, hM, hS, hen] <;>
    simp only [Option.bind_eq_bind, Option.none_bind, Option.some_bind]
  rcases h with h | h
  · have hnone : w.english_table.get? eng.rank = none :=
      List.get?_eq_none.mpr h
    rcases hD : w.english_table.get? w.english_required with _ | ds <;>
      simp only [hD, hnone, Option.none_bind, Option.some_bind]
  · have hnone : w.english_table.get? w.english_required = none :=
      List.get?_eq_none.mpr h
    simp only [hnone, Option.none_bind]

theorem english_rank_out_of_range_witness :
    endToEndRecord.calc_core shortTableWeight = none :=
  english_rank_out_of_range endToEndRecord shortTableWeight ⟨0, 0, 2⟩ rfl
    (by decide)

/-- C8: the final score is independent of English's standard score and
percentile: two records that agree on all subjects' entries except
possibly English's standard score and percentile (same English rank)
get the same final score under any weight table. -/
theorem calc_ignores_english_scores (r1 r2 : Record)
    (w : UniversityWeight)
    (hK : r1.scores Subject.Korean = r2.scores Subject.Korean)
    (hM : r1.scores Subject.Math = r2.scores Subject.Math)
    (hC : r1.scores Subject.Chemistry = r2.scores Subject.Chemistry)
    (hE : r1.scores Subject.EarthScience = r2.scores Subject.EarthScience)
    (e1 e2 : Score) (h1 : r1.scores Subject.English = some e1)
    (h2 : r2.scores Subject.English = some e2) (hr : e1.rank = e2.rank) :
    r1.calc_core w = r2.calc_core w := by
  have hS : r1.science_cand w = r2.science_cand w := by
    simp only [Record.science_cand, Record.chemistry, Record.earth_science,
      hC, hE]
  simp only [Record.calc_core, Record.korean, Record.math, Record.english,
    hK, hM, hS, h1, h2]
  simp only [Option.bind_eq_bind, Option.some_bind, hr]

theorem calc_ignores_english_scores_witness :
    endToEndRecord.calc_core endToEndWeight =
      altEnglishRecord.calc_core endToEndWeight :=
  calc_ignores_english_scores endToEndRecord altEnglishRecord endToEndWeight
    rfl rfl rfl rfl ⟨0, 0, 2⟩ ⟨120, 80, 2⟩ rfl rfl rfl

/-- Rust `f64 as usize` recovers a natural number that was stored as a
float: the rank round-trips through the dataframe. -/
theorem f64_as_usize_natCast (n : Nat) : f64_as_usize (n : ℚ) = n := by
  have h : ((n : ℚ)).floor = (n : ℤ) := by
    rw [Rat.floor_def']
    simp
  simp [f64_as_usize, h]

/-- C9: persistence special-cases English. Saving a fully populated
record writes English's standard score and percentile as 0 and 0 (only
the rank is stored), the other four subjects' triples verbatim; loading
the written dataframe reconstructs English as `(0, 0, rank)` and the
other four subjects exactly as recorded, under the same student name. -/
theorem persistence_english_special_case (r : Record)
    (kor mat eng chem earth : Score)
    (hk : r.korean = some kor) (hm : r.math = some mat)
    (hen : r.english = some eng) (hc : r.chemistry = some chem)
    (he : r.earth_science = some earth) :
    r.to_dataframe = some
      [("Korean", [kor.standard_score, kor.percentile, (kor.rank : ℚ)]),
       ("Math", [mat.standard_score, mat.percentile, (mat.rank : ℚ)]),
       ("English", [0, 0, (eng.rank : ℚ)]),
       ("Chemistry",
         [chem.standard_score, chem.percentile, (chem.rank : ℚ)]),
       ("EarthScience",
         [earth.standard_score, earth.percentile, (earth.rank : ℚ)])] ∧
    ∀ df, r.to_dataframe = some df →
      (Record.read_parquet r.name df).map Record.name = some r.name ∧
      (Record.read_parquet r.name df).map
          (fun t => t.scores Subject.English) = some (some ⟨0, 0, eng.rank⟩) ∧
      (Record.read_parquet r.name df).map
          (fun t => t.scores Subject.Korean) = some (some kor) ∧
      (Record.read_parquet r.name df).map
          (fun t => t.scores Subject.Math) = some (some mat) ∧
      (Record.read_parquet r.name df).map
          (fun t => t.scores Subject.Chemistry) = some (some chem) ∧
      (Record.read_parquet r.name df).map
          (fun t => t.scores Subject.EarthScience) = some (some earth) := by
  have hdf : r.to_dataframe = some
      [("Korean", [kor.standard_score, kor.percentile, (kor.rank : ℚ)]),
       ("Math", [mat.standard_score, mat.percentile, (mat.rank : ℚ)]),
       ("English", [0, 0, (eng.rank : ℚ)]),
       ("Chemistry",
         [chem.standard_score, chem.percentile, (chem.rank : ℚ)]),
       ("EarthScience",
         [earth.standard_score, earth.percentile, (earth.rank : ℚ)])] := by
    simp only [Record.to_dataframe, hk, hm, hen, hc, he]
    simp only [Option.bind_eq_bind, Option.some_bind]
  refine ⟨hdf, fun df hdf2 => ?_⟩
  rw [hdf] at hdf2
  obtain rfl := (Option.some.injEq _ _).mp hdf2.symm
  have e1 : f64_as_usize ((kor.rank : ℚ)) = kor.rank := f64_as_usize_natCast _
  have e2 : f64_as_usize ((mat.rank : ℚ)) = mat.rank := f64_as_usize_natCast _
  have e3 : f64_as_usize ((eng.rank : ℚ)) = eng.rank := f64_as_usize_natCast _
  have e4 : f64_as_usize ((chem.rank : ℚ)) = chem.rank :=
    f64_as_usize_natCast _
  have e5 : f64_as_usize ((earth.rank : ℚ)) = earth.rank :=
    f64_as_usize_natCast _
  have hread : Record.read_parquet r.name
      [("Korean", [kor.standard_score, kor.percentile, (kor.rank : ℚ)]),
       ("Math", [mat.standard_score, mat.percentile, (mat.rank : ℚ)]),
       ("English", [0, 0, (eng.rank : ℚ)]),
       ("Chemistry",
         [chem.standard_score, chem.percentile, (chem.rank : ℚ)]),
       ("EarthScience",
         [earth.standard_score, earth.percentile, (earth.rank : ℚ)])] =
      some ((((((Record.new r.name).record Subject.Korean kor.standard_score
        kor.percentile (f64_as_usize ((kor.rank : ℚ)))).record Subject.Math
        mat.standard_score mat.percentile
        (f64_as_usize ((mat.rank : ℚ)))).record Subject.English 0 0
        (f64_as_usize ((eng.rank : ℚ)))).record Subject.Chemistry
        chem.standard_score chem.percentile
        (f64_as_usize ((chem.rank : ℚ)))).record Subject.EarthScience
        earth.standard_score earth.percentile
        (f64_as_usize ((earth.rank : ℚ)))) := rfl
  rw [e1, e2, e3, e4, e5] at hread
  rw [hread]
  exact ⟨rfl, rfl, rfl, rfl, rfl, rfl⟩

theorem persistence_english_special_case_witness :
    endToEndRecord.to_dataframe = some
      [("Korean", [130, 95, ((1 : Nat) : ℚ)]),
       ("Math", [125, 93, ((2 : Nat) : ℚ)]),
       ("English", [0, 0, ((2 : Nat) : ℚ)]),
       ("Chemistry", [68, 94, ((2 : Nat) : ℚ)]),
       ("EarthScience", [65, 90, ((2 : Nat) : ℚ)])] ∧
    (Record.read_parquet endToEndRecord.name
        [("Korean", [130, 95, ((1 : Nat) : ℚ)]),
         ("Math", [125, 93, ((2 : Nat) : ℚ)]),
         ("English", [0, 0, ((2 : Nat) : ℚ)]),
         ("Chemistry", [68, 94, ((2 : Nat) : ℚ)]),
         ("EarthScience", [65, 90, ((2 : Nat) : ℚ)])]).map
        (fun t => t.scores Subject.English) = some (some ⟨0, 0, 2⟩) :=
  ⟨(persistence_english_special_case endToEndRecord ⟨130, 95, 1⟩
      ⟨125, 93, 2⟩ ⟨0, 0, 2⟩ ⟨68, 94, 2⟩ ⟨65, 90, 2⟩ rfl rfl rfl rfl rfl).1,
   ((persistence_english_special_case endToEndRecord ⟨130, 95, 1⟩
      ⟨125, 93, 2⟩ ⟨0, 0, 2⟩ ⟨68, 94, 2⟩ ⟨65, 90, 2⟩ rfl rfl rfl rfl rfl).2 _
      (persistence_english_special_case endToEndRecord ⟨130, 95, 1⟩
        ⟨125, 93, 2⟩ ⟨0, 0, 2⟩ ⟨68, 94, 2⟩ ⟨65, 90, 2⟩ rfl rfl rfl rfl
        rfl).1).2.1⟩

end Suneung
